import Mathlib

/-!
Shallow embedding of the primary-backup key-value replication system:
the View Authority (`viewservice/server.go`) and the replica key-value
server (`kvserver`).  Time-dependent liveness is modelled by passing the
set of servers that have timed out to each tick; Go's randomized map
iteration order is modelled by an explicit iteration-order parameter.
Network effects (RPC dial/call failures, the backup's reply) are passed
in as explicit outcome parameters.
-/

namespace PB

/-- A view published by the View Authority (`viewservice` `View` struct):
view number, primary address, backup address ("" means none). -/
structure View where
  viewNumber : Nat
  primary : String
  backup : String
deriving DecidableEq

/-- State of the View Authority (`ViewServer` struct): the current view, the
registered servers in first-registration order with their alive flag, the
idle-server list, and the `primaryAcked` flag. -/
structure VSState where
  currentView : View
  servers : List (String × Bool)
  idleServers : List String
  primaryAcked : Bool
deriving DecidableEq

/-- Initial View Authority state (`StartServer`): view `(0, "", "")`,
no servers, `primaryAcked = true`. -/
def initState : VSState :=
  { currentView := ⟨0, "", ""⟩, servers := [], idleServers := [], primaryAcked := true }

/-- Look up a server's alive flag in the registration list
(models `vs.servers[name]` including existence). -/
def lookupServer : List (String × Bool) → String → Option Bool
  | [], _ => none
  | (n, a) :: rest, name => if n = name then some a else lookupServer rest name

/-- True iff the server is registered and currently alive. -/
def isAliveIn (servers : List (String × Bool)) (name : String) : Bool :=
  match lookupServer servers name with
  | some a => a
  | none => false

/-- Mark a registered server alive (a fresh ping resets its deadline). -/
def markAlive (servers : List (String × Bool)) (name : String) : List (String × Bool) :=
  servers.map (fun p => if p.1 = name then (p.1, true) else p)

/-- Mark every server in `deads` dead: models the timeout scan at the top of
`checkFailuresAndPromote` (`now - LastPingTime > DeadInterval`). -/
def markDead (deads : List String) (servers : List (String × Bool)) : List (String × Bool) :=
  servers.map (fun p => if p.1 ∈ deads then (p.1, false) else p)

/-- Model of `removeFromIdle`: drop a server from the idle list, keeping order. -/
def removeFromIdle (idle : List String) (name : String) : List String :=
  idle.filter (fun n => n ≠ name)

/-- The `Ping` RPC handler's state update (lines 82-113): refresh / register
the caller, extend the idle list for a new caller that is neither primary nor
backup, and set `primaryAcked` when the caller is the current primary and
advertises the current view number.  The reply is the (unchanged) current
view. -/
def pingStep (name : String) (vn : Nat) (s : VSState) : VSState :=
  let known := (lookupServer s.servers name).isSome
  let servers2 := if known then markAlive s.servers name else s.servers ++ [(name, true)]
  let idle2 :=
    if known then s.idleServers
    else if name ≠ s.currentView.primary ∧ name ≠ s.currentView.backup then
      s.idleServers ++ [name]
    else s.idleServers
  let acked2 :=
    if name = s.currentView.primary ∧ vn = s.currentView.viewNumber then true
    else s.primaryAcked
  { s with servers := servers2, idleServers := idle2, primaryAcked := acked2 }

/-- Primary failure check (lines 153-178).  If the primary is registered and
dead: promote the backup when `primaryAcked` holds, the backup is non-empty
and the backup is alive; otherwise, when `primaryAcked` holds and the backup
is empty, clear the primary and keep `primaryAcked = true`; otherwise do
nothing.  Note the Go `else if`: a non-empty dead backup blocks the
clear-primary branch. -/
def checkPrimary (s : VSState) : VSState :=
  if s.currentView.primary = "" then s
  else if lookupServer s.servers s.currentView.primary = some false then
    if s.primaryAcked ∧ s.currentView.backup ≠ "" then
      if lookupServer s.servers s.currentView.backup = some true then
        { s with
          currentView := ⟨s.currentView.viewNumber + 1, s.currentView.backup, ""⟩,
          primaryAcked := false }
      else s
    else if s.primaryAcked then
      { s with
        currentView := ⟨s.currentView.viewNumber + 1, "", s.currentView.backup⟩,
        primaryAcked := true }
    else s
  else s

/-- Backup failure check (lines 180-188): a registered dead backup is removed
and the view number incremented; `primaryAcked` is untouched. -/
def checkBackup (s : VSState) : VSState :=
  if s.currentView.backup = "" then s
  else if lookupServer s.servers s.currentView.backup = some false then
    { s with
      currentView := ⟨s.currentView.viewNumber + 1, s.currentView.primary, ""⟩ }
  else s

/-- First name in the iteration order that is registered-alive and distinct
from `banned` (models the `for name, server := range vs.servers` selection
loops; `ord` is the map iteration order of that run). -/
def pickFirst (servers : List (String × Bool)) (banned : String) : List String → Option String
  | [] => none
  | n :: rest =>
    if isAliveIn servers n = true ∧ n ≠ banned then some n
    else pickFirst servers banned rest

/-- New-primary assignment (lines 190-203): fires when the view has no
primary and `primaryAcked` holds; picks the first alive server (≠ backup) in
this run's iteration order, increments the view number and clears
`primaryAcked`. -/
def assignPrimary (ord : List String) (s : VSState) : VSState :=
  if s.currentView.primary = "" ∧ s.primaryAcked then
    match pickFirst s.servers s.currentView.backup ord with
    | some n =>
      { s with
        currentView := ⟨s.currentView.viewNumber + 1, n, s.currentView.backup⟩,
        primaryAcked := false,
        idleServers := removeFromIdle s.idleServers n }
    | none => s
  else s

/-- New-backup assignment (lines 205-217): fires when the view has a primary,
no backup, and `primaryAcked` holds; picks the first alive server distinct
from the primary; `primaryAcked` is untouched. -/
def assignBackup (ord : List String) (s : VSState) : VSState :=
  if s.currentView.backup = "" ∧ s.currentView.primary ≠ "" ∧ s.primaryAcked then
    match pickFirst s.servers s.currentView.primary ord with
    | some n =>
      { s with
        currentView := ⟨s.currentView.viewNumber + 1, s.currentView.primary, n⟩,
        idleServers := removeFromIdle s.idleServers n }
    | none => s
  else s

/-- One run of `checkFailuresAndPromote` under the lock: mark timed-out
servers dead, then the four phases in program order.  `ordP` and `ordB` are
the (independent) map iteration orders of the two selection loops. -/
def tick (deads ordP ordB : List String) (s : VSState) : VSState :=
  assignBackup ordB
    (assignPrimary ordP
      (checkBackup
        (checkPrimary { s with servers := markDead deads s.servers })))

/-- An operation arriving at the View Authority: a `Ping` RPC, a `GetView`
RPC, or a ticker run. -/
inductive VSOp where
  | ping (name : String) (vn : Nat)
  | getView
  | tick (deads ordP ordB : List String)
deriving DecidableEq

/-- State transition of one operation. -/
def step (op : VSOp) (s : VSState) : VSState :=
  match op with
  | .ping name vn => pingStep name vn s
  | .getView => s
  | .tick deads ordP ordB => tick deads ordP ordB s

/-- Run a list of operations from the initial state. -/
def exec (ops : List VSOp) : VSState :=
  ops.foldl (fun s op => step op s) initState

/-- The view published by an operation's reply, if any: `Ping` and `GetView`
reply with the current view after their update; a tick replies nothing. -/
def replyOf (op : VSOp) (s : VSState) : Option View :=
  match op with
  | .ping _ _ => some s.currentView
  | .getView => some s.currentView
  | .tick _ _ _ => none

/-- Run a list of operations, collecting the views sent in replies. -/
def execWithReplies (ops : List VSOp) : VSState × List View :=
  ops.foldl
    (fun acc op =>
      let s2 := step op acc.1
      match replyOf op s2 with
      | some v => (s2, acc.2 ++ [v])
      | none => (s2, acc.2))
    (initState, [])

/-- Error constants of the kvserver package: `OK = ""`, `ErrNoKey`,
`ErrNotPrimary`. -/
def OK : String := ""

/-- Error `ErrNoKey`: the key is absent on a Get. -/
def ErrNoKey : String := "ErrNoKey"

/-- Error `ErrNotPrimary`: the callee is not in the required role. -/
def ErrNotPrimary : String := "ErrNotPrimary"

/-- Argument of the `Put` RPC. -/
structure PutArgs where
  key : String
  value : String
deriving DecidableEq

/-- Look up a key in the store (`kv.data[key]`). -/
def getKey : List (String × String) → String → Option String
  | [], _ => none
  | (k0, v0) :: rest, k => if k0 = k then some v0 else getKey rest k

/-- Assignment `kv.data[key] = value`: replace the binding in place if the key is
present, otherwise append it (Go map assignment, last-writer-wins). -/
def setKey : List (String × String) → String → String → List (String × String)
  | [], k, v => [(k, v)]
  | (k0, v0) :: rest, k, v =>
    if k0 = k then (k0, v) :: rest else (k0, v0) :: setKey rest k v

/-- State of a replica (`KVServer` struct): own address, last known view,
store, role, last known backup, syncing flag and pending-put queue. -/
structure KVState where
  me : String
  currentView : View
  data : List (String × String)
  role : String
  lastBackup : String
  syncing : Bool
  pendingQueue : List PutArgs
deriving DecidableEq

/-- Outcome of the synchronous forward to the backup inside `Put`:
the dial may fail, the `ForwardUpdate` call may fail, or the backup
replies with an error string (ignored by the code). -/
inductive FwdOutcome where
  | dialFail
  | callFail
  | reply (err : String)
deriving DecidableEq

/-- The `Put` RPC handler (part_000 lines 256-306).  Returns the new state,
the reply error, and the list of `ForwardUpdate` RPCs issued (as
(backup, key, value) triples; none when the dial to the backup fails).
Non-primaries reject; while syncing the request is queued FIFO and `OK`
returned with the store untouched; otherwise the update is forwarded to a
non-empty backup and, regardless of the forward's outcome, applied locally
with `OK` returned. -/
def Put (kv : KVState) (args : PutArgs) (fwd : FwdOutcome) :
    KVState × String × List (String × String × String) :=
  if kv.role ≠ "primary" then (kv, ErrNotPrimary, [])
  else if kv.syncing then
    ({ kv with pendingQueue := kv.pendingQueue ++ [args] }, OK, [])
  else
    ({ kv with data := setKey kv.data args.key args.value }, OK,
      if kv.currentView.backup = "" then []
      else
        match fwd with
        | .dialFail => []
        | _ => [(kv.currentView.backup, args.key, args.value)])

/-- The `Get` RPC handler (part_000 lines 235-253): non-primaries reject;
otherwise return the stored value with `OK`, or `ErrNoKey` if absent. -/
def Get (kv : KVState) (key : String) : String × String :=
  if kv.role ≠ "primary" then ("", ErrNotPrimary)
  else
    match getKey kv.data key with
    | some v => (v, OK)
    | none => ("", ErrNoKey)

/-- The `ForwardUpdate` RPC handler (part_000 lines 309-321): a non-backup
replies `ErrNotPrimary` leaving the store untouched; a backup applies
`data[key] = value` and replies `OK`. -/
def ForwardUpdate (kv : KVState) (key value : String) : KVState × String :=
  if kv.role ≠ "backup" then (kv, ErrNotPrimary)
  else ({ kv with data := setKey kv.data key value }, OK)

/-- The `SyncState` RPC handler (part_000 lines 324-338): unconditionally
replaces the whole store with the received snapshot and replies `OK`; the
role is never inspected and the view number argument is unused. -/
def SyncState (kv : KVState) (snapshot : List (String × String)) (vn : Nat) :
    KVState × String :=
  ({ kv with data := snapshot }, OK)

/-- Model of `handleViewChange` (part_000 lines 141-172), run after installing a new
view: recompute the role from the view; when primary, set `lastBackup` to a
newly appearing non-empty backup and spawn a state transfer (the returned
Bool), or reset `lastBackup` when the view has no backup. -/
def handleViewChange (kv : KVState) : KVState × Bool :=
  let role2 :=
    if kv.currentView.primary = kv.me then "primary"
    else if kv.currentView.backup = kv.me then "backup"
    else "idle"
  let kv1 := { kv with role := role2 }
  if role2 = "primary" then
    if kv1.currentView.backup ≠ "" ∧ kv1.currentView.backup ≠ kv1.lastBackup then
      ({ kv1 with lastBackup := kv1.currentView.backup }, true)
    else if kv1.currentView.backup = "" then
      ({ kv1 with lastBackup := "" }, false)
    else (kv1, false)
  else (kv1, false)

/-- Outcome of the `SyncState` RPC of a state transfer: dial failure, call
failure, or success. -/
inductive SyncOutcome where
  | dialFail
  | callFail
  | success
deriving DecidableEq

/-- Start of `transferState` (part_000 lines 176-182), under the lock:
set `syncing = true` and snapshot the store.  Returns the new state and the
snapshot that will be sent. -/
def transferBegin (kv : KVState) : KVState × List (String × String) :=
  ({ kv with syncing := true }, kv.data)

/-- Rest of `transferState` (part_000 lines 186-232), after the `SyncState`
RPC returned.  On dial or call failure: clear `syncing` and return
(`lastBackup` and the pending queue are untouched).  On success: clear
`syncing` and, if the pending queue is non-empty, empty it and re-invoke
`Put` on each queued request in order; `fwdOf i` is the forward outcome of
the i-th re-invoked put. -/
def transferFinish (kv : KVState) (outcome : SyncOutcome) (fwdOf : Nat → FwdOutcome) :
    KVState :=
  match outcome with
  | .dialFail => { kv with syncing := false }
  | .callFail => { kv with syncing := false }
  | .success =>
    let kv2 := { kv with syncing := false }
    if kv2.pendingQueue = [] then kv2
    else
      let pending := kv2.pendingQueue
      let kv3 := { kv2 with pendingQueue := [] }
      pending.enum.foldl (fun s pi => (Put s pi.2 (fwdOf pi.1)).1) kv3

/-! ### Helper lemmas about the View Authority phases -/

theorem checkPrimary_cases (s : VSState) :
    checkPrimary s = s ∨
      ((checkPrimary s).primaryAcked = false ∧
        (checkPrimary s).currentView.viewNumber = s.currentView.viewNumber + 1) ∨
      ((checkPrimary s).currentView.primary = "" ∧ (checkPrimary s).primaryAcked = true ∧
        (checkPrimary s).currentView.viewNumber = s.currentView.viewNumber + 1) := by
  unfold checkPrimary
  split
  · exact Or.inl rfl
  · split
    · split
      · split
        · exact Or.inr (Or.inl ⟨rfl, rfl⟩)
        · exact Or.inl rfl
      · split
        · exact Or.inr (Or.inr ⟨rfl, rfl, rfl⟩)
        · exact Or.inl rfl
    · exact Or.inl rfl

theorem checkPrimary_noack (s : VSState) (h : s.primaryAcked = false) :
    checkPrimary s = s := by
  unfold checkPrimary
  split
  · rfl
  · split
    · split
      · rename_i hc
        rw [h] at hc
        exact absurd hc.1 (by simp)
      · split
        · rename_i hc
          rw [h] at hc
          exact absurd hc (by simp)
        · rfl
    · rfl

theorem checkBackup_primary (s : VSState) :
    (checkBackup s).currentView.primary = s.currentView.primary := by
  unfold checkBackup
  split
  · rfl
  · split
    · rfl
    · rfl

theorem checkBackup_acked (s : VSState) :
    (checkBackup s).primaryAcked = s.primaryAcked := by
  unfold checkBackup
  split
  · rfl
  · split
    · rfl
    · rfl

theorem checkBackup_cases (s : VSState) :
    checkBackup s = s ∨
      (checkBackup s).currentView.viewNumber = s.currentView.viewNumber + 1 := by
  unfold checkBackup
  split
  · exact Or.inl rfl
  · split
    · exact Or.inr rfl
    · exact Or.inl rfl

theorem assignPrimary_cases (ord : List String) (s : VSState) :
    assignPrimary ord s = s ∨
      ((assignPrimary ord s).primaryAcked = false ∧
        (assignPrimary ord s).currentView.viewNumber = s.currentView.viewNumber + 1) := by
  unfold assignPrimary
  split
  · split
    · exact Or.inr ⟨rfl, rfl⟩
    · exact Or.inl rfl
  · exact Or.inl rfl

theorem assignPrimary_skip (ord : List String) (s : VSState)
    (h : ¬(s.currentView.primary = "" ∧ s.primaryAcked)) :
    assignPrimary ord s = s := by
  unfold assignPrimary
  split
  · rename_i hc
    exact absurd hc h
  · rfl

theorem assignBackup_primary (ord : List String) (s : VSState) :
    (assignBackup ord s).currentView.primary = s.currentView.primary := by
  unfold assignBackup
  split
  · split
    · rfl
    · rfl
  · rfl

theorem assignBackup_acked (ord : List String) (s : VSState) :
    (assignBackup ord s).primaryAcked = s.primaryAcked := by
  unfold assignBackup
  split
  · split
    · rfl
    · rfl
  · rfl

theorem assignBackup_cases (ord : List String) (s : VSState) :
    assignBackup ord s = s ∨
      (assignBackup ord s).currentView.viewNumber = s.currentView.viewNumber + 1 := by
  unfold assignBackup
  split
  · split
    · exact Or.inr rfl
    · exact Or.inl rfl
  · exact Or.inl rfl

/-- A tick with a non-acknowledged primary never changes the primary:
the promote, remove and assign-primary branches all require `primaryAcked`. -/
theorem tick_noack_primary (deads ordP ordB : List String) (s : VSState)
    (h : s.primaryAcked = false) :
    (tick deads ordP ordB s).currentView.primary = s.currentView.primary := by
  unfold tick
  set s1 : VSState := { s with servers := markDead deads s.servers } with hs1
  have h1 : s1.primaryAcked = false := h
  rw [checkPrimary_noack s1 h1]
  have h2 : (checkBackup s1).primaryAcked = false := by
    rw [checkBackup_acked]; exact h1
  rw [assignPrimary_skip _ _ (by rw [h2]; simp)]
  rw [assignBackup_primary, checkBackup_primary]

/-- If after a tick the primary is non-empty and acknowledged, the tick
did not change the primary and the primary was already acknowledged. -/
theorem tick_acked_stable (deads ordP ordB : List String) (s : VSState)
    (ha : (tick deads ordP ordB s).primaryAcked = true)
    (hp : (tick deads ordP ordB s).currentView.primary ≠ "") :
    s.primaryAcked = true ∧
      (tick deads ordP ordB s).currentView.primary = s.currentView.primary := by
  unfold tick at ha hp ⊢
  set s1 : VSState := { s with servers := markDead deads s.servers } with hs1
  set s2 : VSState := checkPrimary s1 with hs2
  set s3 : VSState := checkBackup s2 with hs3
  set s4 : VSState := assignPrimary ordP s3 with hs4
  have h54a : (assignBackup ordB s4).primaryAcked = s4.primaryAcked := assignBackup_acked _ _
  have h54p : (assignBackup ordB s4).currentView.primary = s4.currentView.primary :=
    assignBackup_primary _ _
  have ha4 : s4.primaryAcked = true := by rw [← h54a]; exact ha
  have hp4 : s4.currentView.primary ≠ "" := by rw [← h54p]; exact hp
  have h43 : s4 = s3 := by
    rcases assignPrimary_cases ordP s3 with h | h
    · exact h
    · rw [hs4] at ha4; rw [h.1] at ha4; exact absurd ha4 (by simp)
  have ha3 : s3.primaryAcked = true := by rw [← h43]; exact ha4
  have hp3 : s3.currentView.primary ≠ "" := by rw [← h43]; exact hp4
  have ha2 : s2.primaryAcked = true := by rw [← checkBackup_acked s2]; exact ha3
  have hp2 : s2.currentView.primary ≠ "" := by
    rw [← checkBackup_primary s2]; exact hp3
  have h21 : s2 = s1 := by
    rcases checkPrimary_cases s1 with h | h | h
    · exact h
    · rw [hs2] at ha2; rw [h.1] at ha2; exact absurd ha2 (by simp)
    · rw [hs2] at hp2; exact absurd h.1 hp2
  have ha1 : s1.primaryAcked = true := by rw [← h21]; exact ha2
  refine ⟨ha1, ?_⟩
  rw [h54p, h43, checkBackup_primary, h21]

theorem exec_concat (ops : List VSOp) (op : VSOp) :
    exec (ops ++ [op]) = step op (exec ops) := by
  unfold exec
  rw [List.foldl_append]
  rfl

/-- There is an index `j` at which `A` pinged the View Authority advertising
`m`, where `m` is the view number of the then-current view and that view
named `A` as primary. -/
def ackWitness (ops : List VSOp) (A : String) : Prop :=
  ∃ j m, ops[j]? = some (VSOp.ping A m) ∧
    (exec (ops.take j)).currentView.primary = A ∧
    (exec (ops.take j)).currentView.viewNumber = m

theorem ackWitness_extend (ops : List VSOp) (op : VSOp) (A : String)
    (h : ackWitness ops A) : ackWitness (ops ++ [op]) A := by
  obtain ⟨j, m, hg, hp, hv⟩ := h
  have hj : j < ops.length := by
    by_contra hge
    rw [List.getElem?_eq_none (Nat.le_of_not_lt hge)] at hg
    exact Option.noConfusion hg
  refine ⟨j, m, ?_, ?_, ?_⟩
  · rw [List.getElem?_append_left hj]
    exact hg
  · rw [List.take_append_of_le_length (Nat.le_of_lt hj)]
    exact hp
  · rw [List.take_append_of_le_length (Nat.le_of_lt hj)]
    exact hv

theorem pingStep_view (name : String) (vn : Nat) (s : VSState) :
    (pingStep name vn s).currentView = s.currentView := rfl

theorem pingStep_acked (name : String) (vn : Nat) (s : VSState)
    (h : (pingStep name vn s).primaryAcked = true) :
    (name = s.currentView.primary ∧ vn = s.currentView.viewNumber) ∨
      s.primaryAcked = true := by
  have h2 : (if name = s.currentView.primary ∧ vn = s.currentView.viewNumber then true
      else s.primaryAcked) = true := h
  by_cases hc : name = s.currentView.primary ∧ vn = s.currentView.viewNumber
  · exact Or.inl hc
  · rw [if_neg hc] at h2
    exact Or.inr h2

/-- Trace invariant: whenever the View Authority's state has a non-empty,
acknowledged primary `A`, the trace contains a ping from `A` advertising the
view number of a view that named `A` as primary. -/
theorem exec_ackWitness (ops : List VSOp)
    (ha : (exec ops).primaryAcked = true)
    (hp : (exec ops).currentView.primary ≠ "") :
    ackWitness ops (exec ops).currentView.primary := by
  induction ops using List.reverseRecOn with
  | nil => exact absurd rfl hp
  | append_singleton ops op ih =>
    rw [exec_concat] at ha hp ⊢
    cases op with
    | getView =>
      exact ackWitness_extend _ _ _ (ih ha hp)
    | ping name vn =>
      have hv : (step (VSOp.ping name vn) (exec ops)).currentView =
          (exec ops).currentView := rfl
      rcases pingStep_acked name vn (exec ops) ha with hnew | hold
      · refine ⟨ops.length, vn, ?_, ?_, ?_⟩
        · rw [List.getElem?_concat_length]
          rw [hv]
          rw [← hnew.1]
        · rw [List.take_left]
          rw [hv, ← hnew.1]
        · rw [List.take_left, ← hnew.2]
      · rw [hv]
        rw [hv] at hp
        exact ackWitness_extend _ _ _ (ih hold hp)
    | tick deads ordP ordB =>
      simp only [step] at ha hp ⊢
      obtain ⟨hacked, hpeq⟩ := tick_acked_stable deads ordP ordB (exec ops) ha hp
      rw [hpeq]
      rw [hpeq] at hp
      exact ackWitness_extend _ _ _ (ih hacked hp)

/-- C1: Acknowledgement safety.  Whenever an operation changes the published
view's primary away from a non-empty primary `A`, `primaryAcked` was true at
the moment of the change, and `A` had previously sent a Ping whose advertised
view number equalled the view number of a view naming `A` as primary;
moreover, when `primaryAcked` is false a tick never advances the primary
(in particular not when the primary is dead). -/
theorem ack_safety_primary_change (ops : List VSOp) (op : VSOp)
    (hA : (exec ops).currentView.primary ≠ "")
    (hch : (exec (ops ++ [op])).currentView.primary ≠ (exec ops).currentView.primary) :
    (exec ops).primaryAcked = true ∧
      ackWitness ops (exec ops).currentView.primary ∧
      ∀ deads ordP ordB s, s.primaryAcked = false →
        (tick deads ordP ordB s).currentView.primary = s.currentView.primary := by
  have hacked : (exec ops).primaryAcked = true := by
    rw [exec_concat] at hch
    cases op with
    | ping name vn => exact absurd rfl hch
    | getView => exact absurd rfl hch
    | tick deads ordP ordB =>
      cases hb : (exec ops).primaryAcked with
      | true => rfl
      | false =>
        exact absurd (tick_noack_primary deads ordP ordB (exec ops) hb) hch
  exact ⟨hacked, exec_ackWitness ops hacked hA,
    fun deads ordP ordB s h => tick_noack_primary deads ordP ordB s h⟩

/-- Witness for C1: a concrete trace in which server "a" becomes primary in
view 1, acknowledges it, then dies; the next tick moves the primary away. -/
theorem ack_safety_primary_change_app :
    (exec [VSOp.ping "a" 0, VSOp.tick [] ["a"] [], VSOp.ping "a" 1]).primaryAcked = true ∧
      ackWitness [VSOp.ping "a" 0, VSOp.tick [] ["a"] [], VSOp.ping "a" 1]
        (exec [VSOp.ping "a" 0, VSOp.tick [] ["a"] [], VSOp.ping "a" 1]).currentView.primary ∧
      ∀ deads ordP ordB s, s.primaryAcked = false →
        (tick deads ordP ordB s).currentView.primary = s.currentView.primary :=
  ack_safety_primary_change [VSOp.ping "a" 0, VSOp.tick [] ["a"] [], VSOp.ping "a" 1]
    (VSOp.tick ["a"] [] []) (by decide) (by decide)

/-! ### View-number monotonicity (C2) -/

theorem step_viewNumber_mono (op : VSOp) (s : VSState) :
    s.currentView.viewNumber ≤ (step op s).currentView.viewNumber := by
  cases op with
  | ping name vn => exact Nat.le_refl _
  | getView => exact Nat.le_refl _
  | tick deads ordP ordB =>
    simp only [step]
    unfold tick
    set s1 : VSState := { s with servers := markDead deads s.servers } with hs1
    have h1 : s.currentView.viewNumber = s1.currentView.viewNumber := rfl
    have h2 : s1.currentView.viewNumber ≤ (checkPrimary s1).currentView.viewNumber := by
      rcases checkPrimary_cases s1 with h | h | h
      · rw [h]
      · rw [h.2]; exact Nat.le_succ _
      · rw [h.2.2]; exact Nat.le_succ _
    have h3 : (checkPrimary s1).currentView.viewNumber ≤
        (checkBackup (checkPrimary s1)).currentView.viewNumber := by
      rcases checkBackup_cases (checkPrimary s1) with h | h
      · rw [h]
      · rw [h]; exact Nat.le_succ _
    have h4 : (checkBackup (checkPrimary s1)).currentView.viewNumber ≤
        (assignPrimary ordP (checkBackup (checkPrimary s1))).currentView.viewNumber := by
      rcases assignPrimary_cases ordP (checkBackup (checkPrimary s1)) with h | h
      · rw [h]
      · rw [h.2]; exact Nat.le_succ _
    have h5 : (assignPrimary ordP (checkBackup (checkPrimary s1))).currentView.viewNumber ≤
        (assignBackup ordB
          (assignPrimary ordP (checkBackup (checkPrimary s1)))).currentView.viewNumber := by
      rcases assignBackup_cases ordB (assignPrimary ordP (checkBackup (checkPrimary s1))) with
        h | h
      · rw [h]
      · rw [h]; exact Nat.le_succ _
    rw [h1]
    exact Nat.le_trans h2 (Nat.le_trans h3 (Nat.le_trans h4 h5))

theorem foldl_viewNumber_mono (more : List VSOp) (s : VSState) :
    s.currentView.viewNumber ≤
      (more.foldl (fun t op => step op t) s).currentView.viewNumber := by
  induction more generalizing s with
  | nil => exact Nat.le_refl _
  | cons op rest ih =>
    exact Nat.le_trans (step_viewNumber_mono op s) (ih (step op s))

theorem exec_viewNumber_mono (ops more : List VSOp) :
    (exec ops).currentView.viewNumber ≤ (exec (ops ++ more)).currentView.viewNumber := by
  unfold exec
  rw [List.foldl_append]
  exact foldl_viewNumber_mono more _

/-- A trace in which one tick performs two view changes: "a" is sole primary
of view 1 (acknowledged), "c" is registered, then a tick finds "a" dead,
clears the primary (view 2) and immediately assigns "c" (view 3). -/
def c2exOps : List VSOp :=
  [.ping "a" 0, .tick [] ["a"] ["a"], .ping "a" 1, .ping "c" 1,
   .tick ["a"] ["c"] [], .getView]

/-- C2 counterexample: in the trace `c2exOps` the view number reaches 3 and
the intermediate view number 2 is really passed through inside the tick (the
primary-check phase produces it), yet the views sent in `Ping`/`GetView`
replies are exactly `[0, 1, 1, 3]` — view 2 is never published, refuting the
claim that every intermediate view number appears in some reply. -/
theorem skipped_view_not_published :
    (execWithReplies c2exOps).1.currentView.viewNumber = 3 ∧
      (checkPrimary { exec (c2exOps.take 4) with
        servers := markDead ["a"] (exec (c2exOps.take 4)).servers
        }).currentView.viewNumber = 2 ∧
      (execWithReplies c2exOps).2.map View.viewNumber = [0, 1, 1, 3] ∧
      2 ∉ (execWithReplies c2exOps).2.map View.viewNumber := by
  decide

/-- C2 amended: across every trace the View Authority's view number is
monotonically non-decreasing and every elementary view change (each of the
four tick phases; pings never change the view) increments it by exactly 1;
however a single tick may chain several such changes, and the intermediate
view numbers are not published in any `Ping` or `GetView` reply — only the
view at the end of a tick is observable. -/
theorem view_number_monotone_unit_changes :
    (∀ ops more, (exec ops).currentView.viewNumber ≤
        (exec (ops ++ more)).currentView.viewNumber) ∧
      (∀ name vn s, (pingStep name vn s).currentView = s.currentView) ∧
      (∀ s, checkPrimary s = s ∨
        (checkPrimary s).currentView.viewNumber = s.currentView.viewNumber + 1) ∧
      (∀ s, checkBackup s = s ∨
        (checkBackup s).currentView.viewNumber = s.currentView.viewNumber + 1) ∧
      (∀ ord s, assignPrimary ord s = s ∨
        (assignPrimary ord s).currentView.viewNumber = s.currentView.viewNumber + 1) ∧
      (∀ ord s, assignBackup ord s = s ∨
        (assignBackup ord s).currentView.viewNumber = s.currentView.viewNumber + 1) := by
  refine ⟨exec_viewNumber_mono, fun name vn s => rfl, ?_, checkBackup_cases, ?_, ?_⟩
  · intro s
    rcases checkPrimary_cases s with h | h | h
    · exact Or.inl h
    · exact Or.inr h.2
    · exact Or.inr h.2.2
  · intro ord s
    rcases assignPrimary_cases ord s with h | h
    · exact Or.inl h
    · exact Or.inr h.2
  · intro ord s
    exact assignBackup_cases ord s

/-- A trace reaching view `(2, "a", "b")` with the primary acknowledged, after
which both servers die and a tick runs. -/
def c4exOps : List VSOp :=
  [.ping "a" 0, .tick [] ["a"] [], .ping "a" 1, .ping "b" 1,
   .tick [] [] ["b"], .tick ["a", "b"] [] []]

/-- C4 counterexample: at view `(2, "a", "b")` with `primaryAcked = true` the
tick finds the primary dead and no live backup (the registered backup "b" is
dead), yet the resulting view is `(3, "a", "")` — the dead primary is left in
place — not the claimed `(3, "", "")`. -/
theorem dead_backup_blocks_primary_clear :
    (exec (c4exOps.take 5)).currentView = ⟨2, "a", "b"⟩ ∧
      (exec (c4exOps.take 5)).primaryAcked = true ∧
      isAliveIn (markDead ["a", "b"] (exec (c4exOps.take 5)).servers) "a" = false ∧
      isAliveIn (markDead ["a", "b"] (exec (c4exOps.take 5)).servers) "b" = false ∧
      (exec c4exOps).currentView = ⟨3, "a", ""⟩ ∧
      (exec c4exOps).currentView ≠ (⟨3, "", ""⟩ : View) := by
  decide

/-- C4 amended: when the tick finds the view's primary dead, `primaryAcked`
true and the backup EMPTY, the primary-check phase advances to
`(view_number+1, None, None)` with `primaryAcked = true` (later phases of the
same tick may then assign a new primary and advance further); when the backup
is non-empty but dead, the primary-check phase does nothing — the dead
primary stays in the view — and only the backup-check phase removes the dead
backup, yielding `(view_number+1, primary unchanged, None)` with
`primaryAcked` still true. -/
theorem primary_dead_tick_transitions (s : VSState)
    (hp : s.currentView.primary ≠ "")
    (hd : lookupServer s.servers s.currentView.primary = some false)
    (ha : s.primaryAcked = true) :
    (s.currentView.backup = "" →
      checkPrimary s = { s with
        currentView := ⟨s.currentView.viewNumber + 1, "", ""⟩,
        primaryAcked := true }) ∧
      (s.currentView.backup ≠ "" →
        lookupServer s.servers s.currentView.backup = some false →
        checkPrimary s = s ∧
          (checkBackup (checkPrimary s)).currentView =
            ⟨s.currentView.viewNumber + 1, s.currentView.primary, ""⟩ ∧
          (checkBackup (checkPrimary s)).primaryAcked = true) := by
  constructor
  · intro hb
    unfold checkPrimary
    rw [if_neg hp, if_pos hd, if_neg (fun hc => hc.2 hb), if_pos ha, hb]
  · intro hb hbd
    have hcp : checkPrimary s = s := by
      unfold checkPrimary
      rw [if_neg hp, if_pos hd, if_pos ⟨ha, hb⟩,
        if_neg (by rw [hbd]; exact fun h => Option.noConfusion h fun h2 => Bool.noConfusion h2)]
    refine ⟨hcp, ?_, ?_⟩
    · rw [hcp]
      unfold checkBackup
      rw [if_neg hb, if_pos hbd]
    · rw [hcp]
      unfold checkBackup
      rw [if_neg hb, if_pos hbd]
      exact ha

/-- A state with a dead, acknowledged primary and no backup. -/
def sDeadNoBackup : VSState := ⟨⟨1, "a", ""⟩, [("a", false)], [], true⟩

/-- A state with a dead, acknowledged primary and a dead non-empty backup. -/
def sDeadDeadBackup : VSState := ⟨⟨2, "a", "b"⟩, [("a", false), ("b", false)], [], true⟩

/-- Witness for C4's amended theorem: concrete one-server and two-server
states exercising both branches. -/
theorem primary_dead_tick_transitions_app :
    ((sDeadNoBackup.currentView.backup = "" →
      checkPrimary sDeadNoBackup = { sDeadNoBackup with
        currentView := ⟨sDeadNoBackup.currentView.viewNumber + 1, "", ""⟩,
        primaryAcked := true }) ∧
      (sDeadNoBackup.currentView.backup ≠ "" →
        lookupServer sDeadNoBackup.servers sDeadNoBackup.currentView.backup = some false →
        checkPrimary sDeadNoBackup = sDeadNoBackup ∧
          (checkBackup (checkPrimary sDeadNoBackup)).currentView =
            ⟨sDeadNoBackup.currentView.viewNumber + 1,
              sDeadNoBackup.currentView.primary, ""⟩ ∧
          (checkBackup (checkPrimary sDeadNoBackup)).primaryAcked = true)) ∧
      ((sDeadDeadBackup.currentView.backup = "" →
        checkPrimary sDeadDeadBackup = { sDeadDeadBackup with
          currentView := ⟨sDeadDeadBackup.currentView.viewNumber + 1, "", ""⟩,
          primaryAcked := true }) ∧
        (sDeadDeadBackup.currentView.backup ≠ "" →
          lookupServer sDeadDeadBackup.servers sDeadDeadBackup.currentView.backup =
            some false →
          checkPrimary sDeadDeadBackup = sDeadDeadBackup ∧
            (checkBackup (checkPrimary sDeadDeadBackup)).currentView =
              ⟨sDeadDeadBackup.currentView.viewNumber + 1,
                sDeadDeadBackup.currentView.primary, ""⟩ ∧
            (checkBackup (checkPrimary sDeadDeadBackup)).primaryAcked = true)) :=
  ⟨primary_dead_tick_transitions sDeadNoBackup (by decide) (by decide) (by decide),
    primary_dead_tick_transitions sDeadDeadBackup (by decide) (by decide) (by decide)⟩

theorem pickFirst_spec (servers : List (String × Bool)) (banned : String)
    (ord : List String) (n : String) (h : pickFirst servers banned ord = some n) :
    isAliveIn servers n = true ∧ n ≠ banned ∧ n ∈ ord := by
  induction ord with
  | nil => exact Option.noConfusion h
  | cons a rest ih =>
    unfold pickFirst at h
    by_cases hc : isAliveIn servers a = true ∧ a ≠ banned
    · rw [if_pos hc] at h
      obtain rfl : a = n := Option.some.inj h
      exact ⟨hc.1, hc.2, List.mem_cons_self a rest⟩
    · rw [if_neg hc] at h
      obtain ⟨h1, h2, h3⟩ := ih h
      exact ⟨h1, h2, List.mem_cons_of_mem a h3⟩

/-- The state after servers "s1" and "s2" register with the fresh View
Authority: view `(0, "", "")`, `primaryAcked`, both servers alive. -/
def sTwoIdle : VSState := exec [.ping "s1" 0, .ping "s2" 0]

/-- C5 counterexample: with the same registered servers and liveness flags
(two alive replicas "s1", "s2", no primary, `primaryAcked`), two runs of the
tick differing only in the map iteration order — both orders are permutations
of the registered keys, as Go's randomized map ranging permits — pick
different primaries, and the second run does not pick the earliest-registered
alive replica.  This refutes the claimed insertion-order determinism. -/
theorem tick_primary_choice_order_dependent :
    sTwoIdle.currentView.primary = "" ∧ sTwoIdle.primaryAcked = true ∧
      sTwoIdle.servers = [("s1", true), ("s2", true)] ∧
      (tick [] ["s1", "s2"] [] sTwoIdle).currentView.primary = "s1" ∧
      (tick [] ["s2", "s1"] [] sTwoIdle).currentView.primary = "s2" ∧
      ("s1" : String) ≠ "s2" := by
  decide

/-- C5 amended: when the tick finds no primary and `primaryAcked` true, the
assignment phase either does nothing or picks as new primary the first name
in that run's map iteration order that is registered-alive and distinct from
the backup, advancing the view by 1 and clearing `primaryAcked`; the choice
is a function of the iteration order of that run — which Go leaves
unspecified — not of insertion (first-registration) order, so two runs may
pick different primaries. -/
theorem assignPrimary_picks_alive (s : VSState) (ord : List String)
    (hp : s.currentView.primary = "")
    (ha : s.primaryAcked = true) :
    assignPrimary ord s = s ∨
      ∃ n, n ∈ ord ∧ isAliveIn s.servers n = true ∧ n ≠ s.currentView.backup ∧
        (assignPrimary ord s).currentView.primary = n ∧
        (assignPrimary ord s).currentView.viewNumber = s.currentView.viewNumber + 1 ∧
        (assignPrimary ord s).primaryAcked = false := by
  unfold assignPrimary
  rw [if_pos ⟨hp, ha⟩]
  rcases hpk : pickFirst s.servers s.currentView.backup ord with _ | n
  · exact Or.inl rfl
  · obtain ⟨h1, h2, h3⟩ := pickFirst_spec _ _ _ _ hpk
    exact Or.inr ⟨n, h3, h1, h2, rfl, rfl, rfl⟩

/-- Witness for C5's amended theorem at the concrete two-replica state with
the reversed iteration order. -/
theorem assignPrimary_picks_alive_app :
    assignPrimary ["s2", "s1"] sTwoIdle = sTwoIdle ∨
      ∃ n, n ∈ ["s2", "s1"] ∧ isAliveIn sTwoIdle.servers n = true ∧
        n ≠ sTwoIdle.currentView.backup ∧
        (assignPrimary ["s2", "s1"] sTwoIdle).currentView.primary = n ∧
        (assignPrimary ["s2", "s1"] sTwoIdle).currentView.viewNumber =
          sTwoIdle.currentView.viewNumber + 1 ∧
        (assignPrimary ["s2", "s1"] sTwoIdle).primaryAcked = false :=
  assignPrimary_picks_alive sTwoIdle ["s2", "s1"] (by decide) (by decide)

/-! ### Store lemmas -/

theorem getKey_setKey (d : List (String × String)) (k v : String) :
    getKey (setKey d k v) k = some v := by
  induction d with
  | nil => simp [setKey, getKey]
  | cons p rest ih =>
    obtain ⟨k0, v0⟩ := p
    by_cases h : k0 = k
    · simp [setKey, getKey, h]
    · simp [setKey, getKey, h, ih]

theorem setKey_idem (d : List (String × String)) (k v : String) :
    setKey (setKey d k v) k v = setKey d k v := by
  induction d with
  | nil => simp [setKey]
  | cons p rest ih =>
    obtain ⟨k0, v0⟩ := p
    by_cases h : k0 = k
    · simp [setKey, h]
    · simp [setKey, h, ih]

/-! ### KV server claims -/

/-- C6: a Put at a syncing primary is appended to the pending queue in FIFO
order and answered `OK` immediately; the store is untouched and no
`ForwardUpdate` is sent. -/
theorem put_while_syncing (kv : KVState) (args : PutArgs) (fwd : FwdOutcome)
    (hr : kv.role = "primary") (hs : kv.syncing = true) :
    Put kv args fwd = ({ kv with pendingQueue := kv.pendingQueue ++ [args] }, OK, []) := by
  unfold Put
  rw [if_neg (fun h => h hr), if_pos hs]

/-- A primary with a backup, mid state-transfer. -/
def kvSyncing : KVState :=
  ⟨"p", ⟨2, "p", "b"⟩, [("x", "1")], "primary", "b", true, []⟩

/-- Witness for C6 at a concrete syncing primary. -/
theorem put_while_syncing_app :
    Put kvSyncing ⟨"k", "v"⟩ FwdOutcome.callFail =
      ({ kvSyncing with pendingQueue := [⟨"k", "v"⟩] }, OK, []) :=
  put_while_syncing kvSyncing ⟨"k", "v"⟩ FwdOutcome.callFail (by decide) (by decide)

/-- C7: a Put at a non-syncing primary whose view lists a non-empty backup
sends exactly one `ForwardUpdate(key, value)` to that backup (none only when
even the dial fails), and regardless of the forward's outcome applies the
write locally and returns `OK`. -/
theorem put_forwards_and_applies (kv : KVState) (args : PutArgs) (fwd : FwdOutcome)
    (hr : kv.role = "primary") (hs : kv.syncing = false)
    (hb : kv.currentView.backup ≠ "") :
    (Put kv args fwd).1 = { kv with data := setKey kv.data args.key args.value } ∧
      (Put kv args fwd).2.1 = OK ∧
      (fwd ≠ FwdOutcome.dialFail →
        (Put kv args fwd).2.2 = [(kv.currentView.backup, args.key, args.value)]) ∧
      (fwd = FwdOutcome.dialFail → (Put kv args fwd).2.2 = []) := by
  unfold Put
  rw [if_neg (fun h => h hr), if_neg (by rw [hs]; exact Bool.false_ne_true)]
  refine ⟨rfl, rfl, ?_, ?_⟩
  · intro hf
    rw [if_neg hb]
    cases fwd with
    | dialFail => exact absurd rfl hf
    | callFail => rfl
    | reply err => rfl
  · intro hf
    subst hf
    rw [if_neg hb]

/-- A stable primary with backup "b" and one stored key. -/
def kvStable : KVState :=
  ⟨"p", ⟨2, "p", "b"⟩, [("x", "1")], "primary", "b", false, []⟩

/-- Witness for C7 at a concrete stable primary with a failing forward. -/
theorem put_forwards_and_applies_app :
    (Put kvStable ⟨"k", "v"⟩ FwdOutcome.callFail).1 =
        { kvStable with data := setKey kvStable.data "k" "v" } ∧
      (Put kvStable ⟨"k", "v"⟩ FwdOutcome.callFail).2.1 = OK ∧
      (FwdOutcome.callFail ≠ FwdOutcome.dialFail →
        (Put kvStable ⟨"k", "v"⟩ FwdOutcome.callFail).2.2 =
          [(kvStable.currentView.backup, "k", "v")]) ∧
      (FwdOutcome.callFail = FwdOutcome.dialFail →
        (Put kvStable ⟨"k", "v"⟩ FwdOutcome.callFail).2.2 = []) :=
  put_forwards_and_applies kvStable ⟨"k", "v"⟩ FwdOutcome.callFail
    (by decide) (by decide) (by decide)

/-- C8: `ForwardUpdate` at a backup applies `store[key] = value` and returns
`OK`; re-delivering the same update leaves the state unchanged (last-writer-
wins assignment is idempotent); at any other role it returns `ErrNotPrimary`
with the state untouched. -/
theorem forward_update_behavior :
    (∀ (kv : KVState) (k v : String), kv.role = "backup" →
      ForwardUpdate kv k v = ({ kv with data := setKey kv.data k v }, OK)) ∧
      (∀ (kv : KVState) (k v : String), kv.role = "backup" →
        (ForwardUpdate (ForwardUpdate kv k v).1 k v).1 = (ForwardUpdate kv k v).1) ∧
      (∀ (kv : KVState) (k v : String), kv.role ≠ "backup" →
        ForwardUpdate kv k v = (kv, ErrNotPrimary)) := by
  have happly : ∀ (kv : KVState) (k v : String), kv.role = "backup" →
      ForwardUpdate kv k v = ({ kv with data := setKey kv.data k v }, OK) := by
    intro kv k v hr
    unfold ForwardUpdate
    rw [if_neg (fun h => h hr)]
  refine ⟨happly, ?_, ?_⟩
  · intro kv k v hr
    rw [happly kv k v hr]
    rw [happly { kv with data := setKey kv.data k v } k v hr]
    rw [setKey_idem]
  · intro kv k v hr
    unfold ForwardUpdate
    rw [if_pos hr]

/-- A backup replica state. -/
def kvBackup : KVState :=
  ⟨"b", ⟨2, "p", "b"⟩, [("x", "1")], "backup", "", false, []⟩

/-- An idle replica state. -/
def kvIdle : KVState :=
  ⟨"c", ⟨2, "p", "b"⟩, [("x", "1")], "idle", "", false, []⟩

/-- Witness for C8 at a concrete backup and a concrete idle replica. -/
theorem forward_update_behavior_app :
    ForwardUpdate kvBackup "k" "v" =
        ({ kvBackup with data := setKey kvBackup.data "k" "v" }, OK) ∧
      (ForwardUpdate (ForwardUpdate kvBackup "k" "v").1 "k" "v").1 =
        (ForwardUpdate kvBackup "k" "v").1 ∧
      ForwardUpdate kvIdle "k" "v" = (kvIdle, ErrNotPrimary) :=
  ⟨forward_update_behavior.1 kvBackup "k" "v" (by decide),
    forward_update_behavior.2.1 kvBackup "k" "v" (by decide),
    forward_update_behavior.2.2 kvIdle "k" "v" (by decide)⟩

/-- C9: at a stable, non-syncing primary, `Put(k, v)` followed by `Get(k)`
returns `v` with status `OK`, for every forward outcome. -/
theorem put_get_roundtrip (kv : KVState) (k v : String) (fwd : FwdOutcome)
    (hr : kv.role = "primary") (hs : kv.syncing = false) :
    Get (Put kv ⟨k, v⟩ fwd).1 k = (v, OK) := by
  have h1 : (Put kv ⟨k, v⟩ fwd).1 = { kv with data := setKey kv.data k v } := by
    unfold Put
    rw [if_neg (fun h => h hr), if_neg (by rw [hs]; exact Bool.false_ne_true)]
  rw [h1]
  unfold Get
  rw [if_neg (fun h => h hr), getKey_setKey]

/-- Witness for C9 at a concrete stable primary. -/
theorem put_get_roundtrip_app :
    Get (Put kvStable ⟨"k", "v"⟩ (FwdOutcome.reply OK)).1 "k" = ("v", OK) :=
  put_get_roundtrip kvStable "k" "v" (FwdOutcome.reply OK) (by decide) (by decide)

/-- C10: the `SyncState` handler inspects no role and has no error branch:
for a replica in any role it replaces the whole local store with the received
snapshot and returns `OK` — in particular a current primary's store is
wholesale overwritten. -/
theorem sync_state_overwrites :
    (∀ (kv : KVState) (snapshot : List (String × String)) (vn : Nat),
      (SyncState kv snapshot vn).1.data = snapshot) ∧
      (∀ (kv : KVState) (snapshot : List (String × String)) (vn : Nat),
        (SyncState kv snapshot vn).2 = OK) ∧
      (∀ (kv : KVState) (snapshot : List (String × String)) (vn : Nat) (r : String),
        SyncState { kv with role := r } snapshot vn =
          ({ kv with role := r, data := snapshot }, OK)) ∧
      (∀ (kv : KVState) (snapshot : List (String × String)) (vn : Nat),
        (SyncState kv snapshot vn).1.role = kv.role ∧
          (SyncState kv snapshot vn).1.pendingQueue = kv.pendingQueue) :=
  ⟨fun _ _ _ => rfl, fun _ _ _ => rfl, fun _ _ _ _ => rfl, fun _ _ _ => ⟨rfl, rfl⟩⟩

/-- A replica that just learned view `(2, "p", "b")` naming it primary. -/
def kvNewPrimary : KVState := ⟨"p", ⟨2, "p", "b"⟩, [], "idle", "", false, []⟩

/-- State after `handleViewChange` runs at `kvNewPrimary`. -/
def kvAfterHvc : KVState := (handleViewChange kvNewPrimary).1

/-- State after the transfer began and a `Put("k","v")` arrived mid-sync. -/
def kvMidSync : KVState :=
  (Put (transferBegin kvAfterHvc).1 ⟨"k", "v"⟩ (FwdOutcome.reply OK)).1

/-- State after the `SyncState` RPC of the transfer failed. -/
def kvAfterFail : KVState :=
  transferFinish kvMidSync SyncOutcome.callFail (fun _ => FwdOutcome.reply OK)

/-- C3 (code bug): on `SyncState` RPC failure the code clears only `syncing`:
`lastBackup` (set already at transfer initiation by `handleViewChange`, not at
completion) keeps the backup's name, so a later view still listing the same
backup does NOT re-trigger the transfer, and the pending queue is NOT drained
— the queued write is not applied even locally.  Only the success path drains
the queue.  This contradicts the claimed behavior on every point. -/
theorem sync_failure_divergence :
    (handleViewChange kvNewPrimary).2 = true ∧
      kvAfterHvc.lastBackup = "b" ∧
      kvMidSync.pendingQueue = [⟨"k", "v"⟩] ∧
      kvAfterFail.syncing = false ∧
      kvAfterFail.lastBackup = "b" ∧
      kvAfterFail.pendingQueue = [⟨"k", "v"⟩] ∧
      getKey kvAfterFail.data "k" = none ∧
      (handleViewChange kvAfterFail).2 = false ∧
      (transferFinish kvMidSync SyncOutcome.success
          (fun _ => FwdOutcome.reply OK)).pendingQueue = [] ∧
      getKey (transferFinish kvMidSync SyncOutcome.success
          (fun _ => FwdOutcome.reply OK)).data "k" = some "v" := by
  decide

end PB
